import Mathlib

/-!
Verification of the flappy_bird repository: the TypeScript game logic
(gameLogic, updateBird, updateScore) and the ZisK proof-generation
orchestration script (lock file, cleanup trap, per-step waiting,
artifact verification, resource gate, ordered step sequence).

Numbers of the game logic are embedded as rationals; the script model
embeds every external observation (process liveness, file stat, port or
shared-memory occupancy, PID liveness) as an explicit environment
function, and the control flow of the script as Lean functions.
-/

/-! ## Game logic (src gameLogic.ts) -/

structure Bird where
  x : ℚ
  y : ℚ
  velocity : ℚ
  rotation : ℚ

structure Pipe where
  x : ℚ
  topHeight : ℚ
  bottomHeight : ℚ
  passed : Bool
  id : ℤ

structure GameConfig where
  CANVAS_WIDTH : ℚ
  CANVAS_HEIGHT : ℚ
  BIRD_SIZE : ℚ
  PIPE_WIDTH : ℚ
  PIPE_GAP : ℚ
  GRAVITY : ℚ
  JUMP_FORCE : ℚ
  PIPE_SPEED : ℚ
  PIPE_SPAWN_RATE : ℚ
  MAX_VELOCITY : ℚ
  GROUND_HEIGHT : ℚ

def GAME_CONFIG : GameConfig :=
  { CANVAS_WIDTH := 400
    CANVAS_HEIGHT := 600
    BIRD_SIZE := 30
    PIPE_WIDTH := 60
    PIPE_GAP := 180
    GRAVITY := 2/5
    JUMP_FORCE := -15/2
    PIPE_SPEED := 3
    PIPE_SPAWN_RATE := 120
    MAX_VELOCITY := 10
    GROUND_HEIGHT := 50 }

def updateBird (bird : Bird) : Bird :=
  let newVelocity := min GAME_CONFIG.MAX_VELOCITY (bird.velocity + GAME_CONFIG.GRAVITY)
  let newY := max (GAME_CONFIG.BIRD_SIZE / 2)
    (min (GAME_CONFIG.CANVAS_HEIGHT - GAME_CONFIG.GROUND_HEIGHT - GAME_CONFIG.BIRD_SIZE / 2)
      (bird.y + newVelocity))
  { bird with
    y := newY
    velocity := newVelocity
    rotation := min 45 (max (-25) (newVelocity * (5/2))) }

def jumpBird (bird : Bird) : Bird :=
  { bird with velocity := GAME_CONFIG.JUMP_FORCE, rotation := -25 }

def updateScore (bird : Bird) (pipes : List Pipe) : List Pipe × Nat :=
  match pipes with
  | [] => ([], 0)
  | pipe :: rest =>
    let tail := updateScore bird rest
    if pipe.passed = false ∧ pipe.x + GAME_CONFIG.PIPE_WIDTH < bird.x then
      ({ pipe with passed := true } :: tail.1, tail.2 + 1)
    else
      (pipe :: tail.1, tail.2)

/-- The per-pipe effect of updateScore, used to characterize it. -/
def pipePassUpdate (bird : Bird) (pipe : Pipe) : Pipe :=
  if pipe.passed = false ∧ pipe.x + GAME_CONFIG.PIPE_WIDTH < bird.x then
    { pipe with passed := true }
  else pipe

/-- The condition under which updateScore flips a pipe and counts it. -/
def pipeJustPassed (bird : Bird) (pipe : Pipe) : Bool :=
  decide (pipe.passed = false ∧ pipe.x + GAME_CONFIG.PIPE_WIDTH < bird.x)

/-! ## Proof-generation script (src generate_zk_proof.sh)

Every interaction with the outside world is an explicit environment
function: process liveness and file sizes are indexed by the elapsed
seconds of the surrounding polling loop, mirroring the sleep counters of
the script. -/

inductive VerifyResult
  | Stable
  | Missing
  | Unstable
deriving DecidableEq

/-- Loop body of wait_for_process_completion: poll `ps -p` every 2s,
fail once elapsed reaches the timeout while the process is still alive. -/
def waitLoop (alive : Nat → Bool) (timeout elapsed : Nat) : Bool :=
  if alive elapsed = true then
    if timeout ≤ elapsed then false
    else waitLoop alive timeout (elapsed + 2)
  else true
termination_by timeout - elapsed
decreasing_by omega

def wait_for_process_completion (alive : Nat → Bool) (timeout : Nat) : Bool :=
  waitLoop alive timeout 0

/-- First phase of verify_file_completion: wait (polling every 2s, up to
timeout) for the file to exist; returns the elapsed time at loop exit. -/
def waitExist (fileAt : Nat → Option Nat) (timeout elapsed : Nat) : Nat :=
  if (fileAt elapsed).isNone = true ∧ elapsed < timeout then
    waitExist fileAt timeout (elapsed + 2)
  else elapsed
termination_by timeout - elapsed
decreasing_by omega

/-- Second phase of verify_file_completion: poll `stat -c%s` (0 when the
stat fails) every 2s; a poll whose size is at least the minimum and equal
to the previous poll bumps the stability counter, reaching 3 returns
Stable; a differing size at least the minimum resets the counter; the
previous size is updated every poll; timeout exhaustion returns Unstable. -/
def stabilize (fileAt : Nat → Option Nat)
    (minSize timeout t0 prevSize stableCount elapsed : Nat) : VerifyResult :=
  if elapsed < timeout then
    let currentSize := (fileAt (t0 + elapsed)).getD 0
    if minSize ≤ currentSize then
      if currentSize = prevSize then
        if 3 ≤ stableCount + 1 then .Stable
        else stabilize fileAt minSize timeout t0 currentSize (stableCount + 1) (elapsed + 2)
      else stabilize fileAt minSize timeout t0 currentSize 0 (elapsed + 2)
    else stabilize fileAt minSize timeout t0 currentSize stableCount (elapsed + 2)
  else .Unstable
termination_by timeout - elapsed
decreasing_by all_goals omega

def verify_file_completion (fileAt : Nat → Option Nat) (minSize timeout : Nat) : VerifyResult :=
  let t1 := waitExist fileAt timeout 0
  if (fileAt t1).isNone = true then .Missing
  else stabilize fileAt minSize timeout t1 0 0 0

/-- A ZisK resource: one of the three ports or the matching
shared-memory names checked by wait_for_zisk_resources. -/
inductive ZiskResource
  | port (n : Nat)
  | shm (n : Nat)
deriving DecidableEq

def base_port : Nat := 23200

def mo_port : Nat := base_port + 0

def mt_port : Nat := base_port + 1

def rh_port : Nat := base_port + 2

def ziskResourceSet : List ZiskResource :=
  [.port mo_port, .port mt_port, .port rh_port, .shm mo_port, .shm mt_port, .shm rh_port]

/-- One poll of the resource check: the three ports must be unbound and
no ZISK shared-memory name for them present. -/
def zisk_resources_free (busyAt : Nat → ZiskResource → Bool) (t : Nat) : Bool :=
  let ports_free := !(busyAt t (.port mo_port) || busyAt t (.port mt_port) ||
    busyAt t (.port rh_port))
  let shm_free := !(busyAt t (.shm mo_port) || busyAt t (.shm mt_port) ||
    busyAt t (.shm rh_port))
  ports_free && shm_free

/-- Loop of wait_for_zisk_resources: poll every 10s while elapsed is
below the 300s max wait, succeed at the first all-free poll. -/
def ziskWait (busyAt : Nat → ZiskResource → Bool) (elapsed : Nat) : Bool :=
  if elapsed < 300 then
    if zisk_resources_free busyAt elapsed = true then true
    else ziskWait busyAt (elapsed + 10)
  else false
termination_by 300 - elapsed
decreasing_by omega

def wait_for_zisk_resources (busyAt : Nat → ZiskResource → Bool) : Bool :=
  ziskWait busyAt 0

/-- A process as seen by the cleanup pkill patterns. -/
structure Proc where
  pid : Nat
  matchesZecKeccakf2311 : Bool
  matchesCargoZiskProve : Bool
deriving DecidableEq

def procMatchesZisk (p : Proc) : Bool :=
  p.matchesZecKeccakf2311 || p.matchesCargoZiskProve

/-- The externally visible mutable state the script touches: the lock
file (none = absent, some none = present with empty or unreadable
content, some (some pid) = present recording pid), the running
processes, and the names in /dev/shm and /tmp. -/
structure World where
  lockFile : Option (Option Nat)
  procs : List Proc
  shmFiles : List String
  tmpFiles : List String
deriving DecidableEq

/-- cleanup_zisk_processes: pkill the two toolchain patterns (failures
suppressed with or-true) and delete ZISK_ names from /dev/shm and /tmp
(failures suppressed); returns the new world and the killed processes. -/
def cleanup_zisk_processes (w : World) : World × List Proc :=
  ({ w with
      procs := w.procs.filter (fun p => !procMatchesZisk p)
      shmFiles := w.shmFiles.filter (fun n => !n.startsWith "ZISK_")
      tmpFiles := w.tmpFiles.filter (fun n => !n.startsWith "ZISK_") },
   w.procs.filter procMatchesZisk)

/-- The cleanup function installed by `trap cleanup EXIT`: rm -f the
lock file, then cleanup_zisk_processes. -/
def cleanupTrap (w : World) : World × List Proc :=
  cleanup_zisk_processes { w with lockFile := none }

/-- Behavior of one launched external command: liveness over the seconds
since launch, and the exit code collected by `wait`. -/
structure ProcBehavior where
  alive : Nat → Bool
  exitCode : Nat

/-- Why a step failed, as distinguished by the script's logging: the
process outlived its timeout, a nonzero exit code, or an expected output
file that did not verify (with the verification result). -/
inductive StepFailure
  | timedOut
  | exitCode (code : Nat)
  | artifactFailed (path : String) (r : VerifyResult)
deriving DecidableEq

/-- execute_with_completion_check: wait for the process (timeout makes
the step fail without any kill), check the exit status, then verify each
expected output file with default minimum size 1 and 60s timeout,
failing at the first file that is not Stable. -/
def execute_with_completion_check (p : ProcBehavior) (expected_files : List String)
    (files : String → Nat → Option Nat) (timeout : Nat) : Option StepFailure :=
  if wait_for_process_completion p.alive timeout = false then some .timedOut
  else if p.exitCode ≠ 0 then some (.exitCode p.exitCode)
  else
    match expected_files.find?
        (fun f => !(verify_file_completion (files f) 1 60 == VerifyResult.Stable)) with
    | some f => some (.artifactFailed f (verify_file_completion (files f) 1 60))
    | none => none

def STEP1_FILES : List String := ["build/input.bin"]

def STEP2_FILES : List String := ["target/riscv64ima-zisk-zkvm-elf/release/flappy_zisk"]

def FINAL_PROOF_FILE : String := "proof/vadcop_final_proof.bin"

def STEP4_FILES : List String := [FINAL_PROOF_FILE]

/-- Terminal outcome of one script run. -/
inductive ScriptOutcome
  | busy (pid : Nat)
  | stepFailed (label : String) (step_name : String) (cause : StepFailure)
  | resourceUnavailable
  | proofDirMissing
  | proofFileEmpty
  | completed
deriving DecidableEq

/-- Environment of one script run: the acquiring PID, PID liveness for
the lock check, per-path file observations, the behavior of each step's
command, resource occupancy over time, and the two explicit checks after
proof generation (`-d proof` and `-s` on the final proof). -/
structure ScriptEnv where
  myPid : Nat
  live : Nat → Bool
  files : String → Nat → Option Nat
  step1 : ProcBehavior
  step2 : ProcBehavior
  step25 : ProcBehavior
  step3 : ProcBehavior
  step4 : ProcBehavior
  step5 : ProcBehavior
  busyAt : Nat → ZiskResource → Bool
  proofDirExists : Bool
  statFinalProof : Option Nat

structure BodyResult where
  outcome : ScriptOutcome
  stepsStarted : List String
  world : World
  killedMidRun : List Proc
deriving DecidableEq

def FIRST4 : List String := ["Step 1", "Step 2", "Step 2.5", "Step 3"]

def FIRST5 : List String := FIRST4 ++ ["Step 4"]

def ALL6 : List String := FIRST5 ++ ["Step 5"]

/-- The script body after the lock is created: steps 1 and 2 are fatal,
steps 2.5 and 3 run with failures only logged, then the resource gate
(timeout aborts), a mid-run cleanup_zisk_processes, fatal step 4 with
the final-proof artifact, the proof-directory and non-empty checks, and
non-fatal step 5. -/
def scriptBody (env : ScriptEnv) (w : World) : BodyResult :=
  match execute_with_completion_check env.step1 STEP1_FILES env.files 300 with
  | some c => ⟨.stepFailed "Step 1" "build.rs execution" c, ["Step 1"], w, []⟩
  | none =>
    match execute_with_completion_check env.step2 STEP2_FILES env.files 300 with
    | some c => ⟨.stepFailed "Step 2" "ZisK build" c, ["Step 1", "Step 2"], w, []⟩
    | none =>
      let _rom := execute_with_completion_check env.step25 [] env.files 120
      let _emu := execute_with_completion_check env.step3 [] env.files 120
      if wait_for_zisk_resources env.busyAt = true then
        let cz := cleanup_zisk_processes w
        match execute_with_completion_check env.step4 STEP4_FILES env.files 1800 with
        | some c => ⟨.stepFailed "Step 4" "ZK proof generation" c, FIRST5, cz.1, cz.2⟩
        | none =>
          if env.proofDirExists = true then
            if 0 < env.statFinalProof.getD 0 then
              let _ver := execute_with_completion_check env.step5 [] env.files 120
              ⟨.completed, ALL6, cz.1, cz.2⟩
            else ⟨.proofFileEmpty, FIRST5, cz.1, cz.2⟩
          else ⟨.proofDirMissing, FIRST5, cz.1, cz.2⟩
      else ⟨.resourceUnavailable, FIRST4, w, []⟩

/-- Result of a whole script run: the outcome, which steps were started,
how many times the EXIT-trap cleanup ran, whether a stale lock record
was removed during acquisition, the lock file content right after the
acquisition phase, the final world, and every process killed. -/
structure ScriptResult where
  outcome : ScriptOutcome
  stepsStarted : List String
  cleanupRuns : Nat
  removedStaleLock : Bool
  lockAfterAcquire : Option (Option Nat)
  finalWorld : World
  killedProcs : List Proc
deriving DecidableEq

/-- The part of the run after the lock file is created: the trap is set,
so the body runs and then cleanup runs exactly once on exit. -/
def runLocked (env : ScriptEnv) (removedStale : Bool) (w1 : World) : ScriptResult :=
  let r := scriptBody env w1
  let cz := cleanupTrap r.world
  ⟨r.outcome, r.stepsStarted, 1, removedStale, w1.lockFile, cz.1, r.killedMidRun ++ cz.2⟩

/-- A whole run of the script: the lock-acquisition check (exit 1 with
Busy when the recorded PID is live, before the trap is installed; stale
records removed), creation of the lock file with the acquiring PID, then
the locked part. -/
def runScript (env : ScriptEnv) (w0 : World) : ScriptResult :=
  match w0.lockFile with
  | some (some pid) =>
    if env.live pid = true then
      ⟨.busy pid, [], 0, false, w0.lockFile, w0, []⟩
    else
      runLocked env true { w0 with lockFile := some (some env.myPid) }
  | some none => runLocked env true { w0 with lockFile := some (some env.myPid) }
  | none => runLocked env false { w0 with lockFile := some (some env.myPid) }

/-! ## Two-acquirer interleaving model of the lock claim

The acquisition code is a check (lines testing the lock file, reading
the PID, probing liveness, removing a stale record) followed by a
separate write of the acquirer's own PID; the two are not one atomic
primitive, so two acquirers may interleave them. -/

inductive AcqPhase
  | start
  | checked
  | running
  | busyExit (pid : Nat)
deriving DecidableEq

structure TwoAcq where
  lockFile : Option (Option Nat)
  phaseA : AcqPhase
  phaseB : AcqPhase
  pidA : Nat
  pidB : Nat
deriving DecidableEq

/-- The check half of acquisition, exactly as in the script: a live
recorded PID means Busy exit; a stale or empty record is removed. -/
def acqCheck (live : Nat → Bool) (lock : Option (Option Nat)) :
    AcqPhase × Option (Option Nat) :=
  match lock with
  | some (some p) => if live p = true then (.busyExit p, lock) else (.checked, none)
  | some none => (.checked, none)
  | none => (.checked, none)

/-- One atomic step of one acquirer: its pending half of the
check-then-write sequence. -/
def acqStepFn (live : Nat → Bool) (st : TwoAcq) (who : Bool) : TwoAcq :=
  if who then
    match st.phaseA with
    | .start =>
      let c := acqCheck live st.lockFile
      { st with phaseA := c.1, lockFile := c.2 }
    | .checked => { st with phaseA := .running, lockFile := some (some st.pidA) }
    | _ => st
  else
    match st.phaseB with
    | .start =>
      let c := acqCheck live st.lockFile
      { st with phaseB := c.1, lockFile := c.2 }
    | .checked => { st with phaseB := .running, lockFile := some (some st.pidB) }
    | _ => st

def runSchedule (live : Nat → Bool) (sched : List Bool) (st : TwoAcq) : TwoAcq :=
  sched.foldl (acqStepFn live) st

/-! ## Concrete run environments used as witnesses -/

def okProc : ProcBehavior := ⟨fun _ => false, 0⟩

def hangProc : ProcBehavior := ⟨fun _ => true, 0⟩

/-- File observations where every artifact of the pipeline is present
with a fixed size, but no file named proof/final.bin ever exists. -/
def happyFiles : String → Nat → Option Nat :=
  fun p _ => if p = "proof/final.bin" then none else some 100

def freeBusyAt : Nat → ZiskResource → Bool := fun _ _ => false

/-- Resource occupancy that is free only at the very first poll and busy
at every later instant. -/
def onceFreeBusyAt : Nat → ZiskResource → Bool := fun t _ => decide (1 ≤ t)

def w0Empty : World := ⟨none, [], [], []⟩

def envHappy : ScriptEnv :=
  ⟨555, fun _ => true, happyFiles, okProc, okProc, okProc, okProc, okProc, okProc,
    freeBusyAt, true, some 100⟩

/-- Like envHappy but the non-fatal ROM-setup step exits with code 1. -/
def envNonfatalFail : ScriptEnv :=
  { envHappy with step25 := ⟨fun _ => false, 1⟩ }

/-- Like envHappy but step 2 (ZisK build) exits with code 2. -/
def envStep2Fails : ScriptEnv :=
  { envHappy with step2 := ⟨fun _ => false, 2⟩ }

/-- Like envHappy but step 1 (cargo build) never terminates, and its
process (matching neither pkill pattern) is in the world. -/
def envStep1Hangs : ScriptEnv :=
  { envHappy with step1 := hangProc }

def cargoBuildProc : Proc := ⟨777, false, false⟩

def w0WithBuild : World := ⟨none, [cargoBuildProc], [], []⟩

/-- Like envHappy but the resources are free only at the first poll. -/
def envOnceFree : ScriptEnv :=
  { envHappy with busyAt := onceFreeBusyAt }

/-- Resource occupancy that is busy at every poll. -/
def allBusyAt : Nat → ZiskResource → Bool := fun _ _ => true

/-- Like envHappy but the resources are busy at every poll. -/
def envNeverFree : ScriptEnv :=
  { envHappy with busyAt := allBusyAt }

/-- A world whose lock file records PID 42. -/
def w0Locked : World := ⟨some (some 42), [], [], []⟩

/-- Like envHappy but exactly PID 42 is live. -/
def envLiveLock : ScriptEnv := { envHappy with live := fun p => decide (p = 42) }

/-- Like envHappy but no PID is live. -/
def envDeadLock : ScriptEnv := { envHappy with live := fun _ => false }

/-! ## Helper lemmas about the polling loops -/

theorem waitLoop_of_alive (alive : Nat → Bool) (h : ∀ t, alive t = true)
    (timeout elapsed : Nat) : waitLoop alive timeout elapsed = false := by
  unfold waitLoop
  rw [h elapsed]
  simp only [if_true]
  by_cases hle : timeout ≤ elapsed
  · rw [if_pos hle]
  · rw [if_neg hle]
    exact waitLoop_of_alive alive h timeout (elapsed + 2)
termination_by timeout - elapsed
decreasing_by omega

theorem waitLoop_of_dead (alive : Nat → Bool) (h : ∀ t, alive t = false)
    (timeout elapsed : Nat) : waitLoop alive timeout elapsed = true := by
  unfold waitLoop
  rw [h elapsed]
  simp

theorem waitExist_of_exists0 (fileAt : Nat → Option Nat) (timeout : Nat)
    (h : (fileAt 0).isNone = false) : waitExist fileAt timeout 0 = 0 := by
  unfold waitExist
  rw [h]
  simp

theorem stabilize_of_const (fileAt : Nat → Option Nat) (S minSize timeout t0 : Nat)
    (hf : ∀ t, fileAt t = some S) (hmin : minSize ≤ S) (hS : 1 ≤ S) (ht : 6 < timeout) :
    stabilize fileAt minSize timeout t0 0 0 0 = .Stable := by
  have hS0 : ¬ (S = 0) := by omega
  unfold stabilize
  rw [if_pos (show 0 < timeout by omega)]
  simp only [hf, Option.getD_some]
  rw [if_pos hmin, if_neg hS0]
  unfold stabilize
  rw [if_pos (show 0 + 2 < timeout by omega)]
  simp only [hf, Option.getD_some, eq_self_iff_true, if_true]
  rw [if_pos hmin, if_neg (by omega : ¬ 3 ≤ 0 + 1)]
  unfold stabilize
  rw [if_pos (show 0 + 2 + 2 < timeout by omega)]
  simp only [hf, Option.getD_some, eq_self_iff_true, if_true]
  rw [if_pos hmin, if_neg (by omega : ¬ 3 ≤ 0 + 1 + 1)]
  unfold stabilize
  rw [if_pos (show 0 + 2 + 2 + 2 < timeout by omega)]
  simp only [hf, Option.getD_some, eq_self_iff_true, if_true]
  rw [if_pos hmin, if_pos (by omega : 3 ≤ 0 + 1 + 1 + 1)]

theorem verify_of_const (fileAt : Nat → Option Nat) (S minSize timeout : Nat)
    (hf : ∀ t, fileAt t = some S) (hmin : minSize ≤ S) (hS : 1 ≤ S) (ht : 6 < timeout) :
    verify_file_completion fileAt minSize timeout = .Stable := by
  simp only [verify_file_completion]
  rw [waitExist_of_exists0 fileAt timeout (by rw [hf 0]; rfl), hf 0]
  simp only [Option.isNone_some, Bool.false_eq_true, if_false]
  exact stabilize_of_const fileAt S minSize timeout 0 hf hmin hS ht

theorem verify_of_never (fileAt : Nat → Option Nat) (minSize timeout : Nat)
    (h : ∀ t, fileAt t = none) : verify_file_completion fileAt minSize timeout = .Missing := by
  simp only [verify_file_completion]
  rw [h (waitExist fileAt timeout 0)]
  simp

theorem stabilize_growing (fileAt : Nat → Option Nat)
    (minSize timeout t0 prevSize stableCount elapsed : Nat)
    (hf : ∀ t, fileAt t = some (t + 1)) (hne : prevSize ≠ t0 + elapsed + 1) :
    stabilize fileAt minSize timeout t0 prevSize stableCount elapsed = .Unstable := by
  unfold stabilize
  by_cases hlt : elapsed < timeout
  · rw [if_pos hlt]
    simp only [hf, Option.getD_some]
    have hcur : ¬ (t0 + elapsed + 1 = prevSize) := fun hh => hne hh.symm
    by_cases hm : minSize ≤ t0 + elapsed + 1
    · rw [if_pos hm, if_neg hcur]
      exact stabilize_growing fileAt minSize timeout t0 (t0 + elapsed + 1) 0 (elapsed + 2)
        hf (by omega)
    · rw [if_neg hm]
      exact stabilize_growing fileAt minSize timeout t0 (t0 + elapsed + 1) stableCount
        (elapsed + 2) hf (by omega)
  · rw [if_neg hlt]
termination_by timeout - elapsed
decreasing_by all_goals omega

theorem verify_growing (fileAt : Nat → Option Nat) (minSize timeout : Nat)
    (hf : ∀ t, fileAt t = some (t + 1)) :
    verify_file_completion fileAt minSize timeout = .Unstable := by
  simp only [verify_file_completion]
  rw [waitExist_of_exists0 fileAt timeout (by rw [hf 0]; rfl), hf 0]
  simp only [Option.isNone_some, Bool.false_eq_true, if_false]
  exact stabilize_growing fileAt minSize timeout 0 0 0 0 hf (by omega)

theorem stabilize_stable_aux (fileAt : Nat → Option Nat)
    (minSize timeout t0 elapsed prevSize stableCount : Nat)
    (hmin : 1 ≤ minSize) (hc : stableCount ≤ 2) (he : 2 * stableCount ≤ elapsed)
    (hist : minSize ≤ prevSize →
      ∀ j, j < stableCount → fileAt (t0 + elapsed - 2 * (j + 1)) = some prevSize)
    (h : stabilize fileAt minSize timeout t0 prevSize stableCount elapsed = .Stable) :
    ∃ e S, minSize ≤ S ∧ fileAt e = some S ∧ fileAt (e + 2) = some S ∧
      fileAt (e + 4) = some S := by
  rw [stabilize] at h
  by_cases hlt : elapsed < timeout
  · rw [if_pos hlt] at h
    simp only [] at h
    set cur := (fileAt (t0 + elapsed)).getD 0 with hcur
    by_cases hm : minSize ≤ cur
    · rw [if_pos hm] at h
      have hcs : fileAt (t0 + elapsed) = some cur := by
        rcases hfa : fileAt (t0 + elapsed) with _ | v
        · exfalso
          rw [hcur, hfa] at hm
          simp at hm
          omega
        · rw [hcur, hfa]
          rfl
      by_cases heq : cur = prevSize
      · rw [if_pos heq] at h
        by_cases h3 : 3 ≤ stableCount + 1
        · have hsc : stableCount = 2 := by omega
          subst hsc
          have h0 := hist (heq ▸ hm) 0 (by omega)
          have h1 := hist (heq ▸ hm) 1 (by omega)
          refine ⟨t0 + elapsed - 4, prevSize, heq ▸ hm, ?_, ?_, ?_⟩
          · have : t0 + elapsed - 2 * (1 + 1) = t0 + elapsed - 4 := by omega
            rw [← this]
            exact h1
          · have : t0 + elapsed - 4 + 2 = t0 + elapsed - 2 * (0 + 1) := by omega
            rw [this]
            exact h0
          · have : t0 + elapsed - 4 + 4 = t0 + elapsed := by omega
            rw [this, hcs, heq]
        · rw [if_neg h3] at h
          refine stabilize_stable_aux fileAt minSize timeout t0 (elapsed + 2) cur
            (stableCount + 1) hmin (by omega) (by omega) ?_ h
          intro hmc j hj
          rcases j with _ | k
          · have : t0 + (elapsed + 2) - 2 * (0 + 1) = t0 + elapsed := by omega
            rw [this]
            exact hcs
          · have : t0 + (elapsed + 2) - 2 * (k + 1 + 1) = t0 + elapsed - 2 * (k + 1) := by
              omega
            rw [this, heq]
            exact hist (heq ▸ hm) k (by omega)
      · rw [if_neg heq] at h
        refine stabilize_stable_aux fileAt minSize timeout t0 (elapsed + 2) cur 0
          hmin (by omega) (by omega) (by intro _ j hj; omega) h
    · rw [if_neg hm] at h
      refine stabilize_stable_aux fileAt minSize timeout t0 (elapsed + 2) cur stableCount
        hmin hc (by omega) (by intro hmc j hj; exact absurd hmc hm) h
  · rw [if_neg hlt] at h
    exact absurd h (by simp)
termination_by timeout - elapsed
decreasing_by all_goals omega

theorem verify_stable_implies (fileAt : Nat → Option Nat) (minSize timeout : Nat)
    (hmin : 1 ≤ minSize)
    (h : verify_file_completion fileAt minSize timeout = .Stable) :
    ∃ e S, minSize ≤ S ∧ fileAt e = some S ∧ fileAt (e + 2) = some S ∧
      fileAt (e + 4) = some S := by
  simp only [verify_file_completion] at h
  by_cases hn : (fileAt (waitExist fileAt timeout 0)).isNone = true
  · rw [if_pos hn] at h
    exact absurd h (by simp)
  · rw [if_neg hn] at h
    exact stabilize_stable_aux fileAt minSize timeout (waitExist fileAt timeout 0) 0 0 0
      hmin (by omega) (by omega) (by intro _ j hj; omega) h

theorem ziskWait_of_never (busyAt : Nat → ZiskResource → Bool)
    (h : ∀ t, zisk_resources_free busyAt t = false) (elapsed : Nat) :
    ziskWait busyAt elapsed = false := by
  unfold ziskWait
  by_cases hlt : elapsed < 300
  · rw [if_pos hlt, h elapsed]
    simp only [Bool.false_eq_true, if_false]
    exact ziskWait_of_never busyAt h (elapsed + 10)
  · rw [if_neg hlt]
termination_by 300 - elapsed
decreasing_by omega

theorem ziskWait_true_exists (busyAt : Nat → ZiskResource → Bool) (elapsed : Nat)
    (h : ziskWait busyAt elapsed = true) :
    ∃ t, elapsed ≤ t ∧ t < 300 ∧ zisk_resources_free busyAt t = true := by
  rw [ziskWait] at h
  by_cases hlt : elapsed < 300
  · rw [if_pos hlt] at h
    by_cases hf : zisk_resources_free busyAt elapsed = true
    · exact ⟨elapsed, le_refl _, hlt, hf⟩
    · rw [if_neg hf] at h
      obtain ⟨t, ht1, ht2, ht3⟩ := ziskWait_true_exists busyAt (elapsed + 10) h
      exact ⟨t, by omega, ht2, ht3⟩
  · rw [if_neg hlt] at h
    exact absurd h (by simp)
termination_by 300 - elapsed
decreasing_by omega

theorem ziskWait_of_free0 (busyAt : Nat → ZiskResource → Bool)
    (h : zisk_resources_free busyAt 0 = true) : ziskWait busyAt 0 = true := by
  unfold ziskWait
  rw [if_pos (by omega : (0:Nat) < 300), h]
  simp

/-- One poll reports free exactly when every resource of the fixed set is
observed unoccupied at that instant. -/
theorem zisk_resources_free_iff (busyAt : Nat → ZiskResource → Bool) (t : Nat) :
    zisk_resources_free busyAt t = true ↔ ∀ r ∈ ziskResourceSet, busyAt t r = false := by
  simp only [zisk_resources_free, ziskResourceSet, Bool.and_eq_true, Bool.not_eq_true',
    Bool.or_eq_false_iff, List.mem_cons, List.mem_singleton, List.not_mem_nil]
  constructor
  · rintro ⟨⟨⟨h1, h2⟩, h3⟩, ⟨⟨h4, h5⟩, h6⟩⟩ r hr
    rcases hr with rfl | rfl | rfl | rfl | rfl | rfl | hh
    · exact h1
    · exact h2
    · exact h3
    · exact h4
    · exact h5
    · exact h6
    · exact absurd hh (by simp)
  · intro h
    refine ⟨⟨⟨?_, ?_⟩, ?_⟩, ⟨⟨?_, ?_⟩, ?_⟩⟩ <;> apply h <;> simp

/-! ## Helper lemmas about step execution and the script -/

theorem execute_ok (p : ProcBehavior) (fs : List String)
    (files : String → Nat → Option Nat) (timeout : Nat)
    (hd : ∀ t, p.alive t = false) (hc : p.exitCode = 0)
    (hv : ∀ f ∈ fs, verify_file_completion (files f) 1 60 = .Stable) :
    execute_with_completion_check p fs files timeout = none := by
  unfold execute_with_completion_check
  rw [wait_for_process_completion, waitLoop_of_dead p.alive hd timeout 0]
  simp only [Bool.true_eq_false, if_false]
  rw [if_neg (by simp [hc])]
  have hfind : fs.find?
      (fun f => !(verify_file_completion (files f) 1 60 == VerifyResult.Stable)) = none := by
    rw [List.find?_eq_none]
    intro f hf
    rw [hv f hf]
    simp
  rw [hfind]

theorem execute_hangs (p : ProcBehavior) (fs : List String)
    (files : String → Nat → Option Nat) (timeout : Nat)
    (ha : ∀ t, p.alive t = true) :
    execute_with_completion_check p fs files timeout = some .timedOut := by
  unfold execute_with_completion_check
  rw [wait_for_process_completion, waitLoop_of_alive p.alive ha timeout 0]
  simp

theorem execute_exitCode (p : ProcBehavior) (fs : List String)
    (files : String → Nat → Option Nat) (timeout : Nat)
    (hd : ∀ t, p.alive t = false) (hc : p.exitCode ≠ 0) :
    execute_with_completion_check p fs files timeout = some (.exitCode p.exitCode) := by
  unfold execute_with_completion_check
  rw [wait_for_process_completion, waitLoop_of_dead p.alive hd timeout 0]
  simp only [Bool.true_eq_false, if_false]
  rw [if_pos hc]

theorem execute_none_artifacts (p : ProcBehavior) (fs : List String)
    (files : String → Nat → Option Nat) (timeout : Nat)
    (h : execute_with_completion_check p fs files timeout = none) :
    ∀ f ∈ fs, verify_file_completion (files f) 1 60 = .Stable := by
  intro f hf
  unfold execute_with_completion_check at h
  by_cases hw : wait_for_process_completion p.alive timeout = false
  · rw [if_pos hw] at h
    exact absurd h (by simp)
  · rw [if_neg hw] at h
    by_cases hc : p.exitCode ≠ 0
    · rw [if_pos hc] at h
      exact absurd h (by simp)
    · rw [if_neg hc] at h
      rcases hfind : fs.find?
          (fun f => !(verify_file_completion (files f) 1 60 == VerifyResult.Stable)) with
        _ | g
      · rw [List.find?_eq_none] at hfind
        have := hfind f hf
        simpa using this
      · rw [hfind] at h
        exact absurd h (by simp)

theorem happyFiles_const (p : String) (h : ¬ (p = "proof/final.bin")) (t : Nat) :
    happyFiles p t = some 100 := by
  unfold happyFiles
  rw [if_neg h]

theorem execute_okProc_happy (fs : List String)
    (hfs : ∀ f ∈ fs, ¬ (f = "proof/final.bin")) (timeout : Nat) :
    execute_with_completion_check okProc fs happyFiles timeout = none := by
  refine execute_ok okProc fs happyFiles timeout (fun t => rfl) rfl ?_
  intro f hf
  exact verify_of_const (happyFiles f) 100 1 60 (happyFiles_const f (hfs f hf)) (by omega)
    (by omega) (by omega)

/-- Any environment whose fatal steps succeed, whose resource gate
reports ready, and whose proof-directory and non-empty checks pass,
completes and starts all six steps, regardless of the behavior of the
non-fatal steps 2.5, 3 and 5. -/
theorem runScript_completed (env : ScriptEnv) (w0 : World)
    (hl : w0.lockFile = none)
    (h1 : execute_with_completion_check env.step1 STEP1_FILES env.files 300 = none)
    (h2 : execute_with_completion_check env.step2 STEP2_FILES env.files 300 = none)
    (hg : wait_for_zisk_resources env.busyAt = true)
    (h4 : execute_with_completion_check env.step4 STEP4_FILES env.files 1800 = none)
    (hd : env.proofDirExists = true)
    (hs : 0 < env.statFinalProof.getD 0) :
    (runScript env w0).outcome = .completed ∧ (runScript env w0).stepsStarted = ALL6 := by
  unfold runScript
  rw [hl]
  unfold runLocked scriptBody
  rw [h1, h2, hg, h4, hd]
  simp only [if_pos hs, eq_self_iff_true, if_true, true_and]

theorem scriptBody_not_busy (env : ScriptEnv) (w : World) (q : Nat) :
    ¬ (scriptBody env w).outcome = .busy q := by
  unfold scriptBody
  rcases h1 : execute_with_completion_check env.step1 STEP1_FILES env.files 300 with _ | c1
  · rcases h2 : execute_with_completion_check env.step2 STEP2_FILES env.files 300 with _ | c2
    · by_cases hg : wait_for_zisk_resources env.busyAt = true
      · simp only [if_pos hg]
        rcases h4 : execute_with_completion_check env.step4 STEP4_FILES env.files 1800 with
          _ | c4
        · by_cases hd : env.proofDirExists = true
          · simp only [if_pos hd]
            by_cases hs : 0 < env.statFinalProof.getD 0
            · simp only [if_pos hs]
              simp
            · simp only [if_neg hs]
              simp
          · simp only [if_neg hd]
            simp
        · simp
      · simp only [if_neg hg]
        simp
    · simp
  · simp

theorem scriptBody_starts_step1 (env : ScriptEnv) (w : World) :
    "Step 1" ∈ (scriptBody env w).stepsStarted := by
  unfold scriptBody
  rcases h1 : execute_with_completion_check env.step1 STEP1_FILES env.files 300 with _ | c1
  · rcases h2 : execute_with_completion_check env.step2 STEP2_FILES env.files 300 with _ | c2
    · by_cases hg : wait_for_zisk_resources env.busyAt = true
      · simp only [if_pos hg]
        rcases h4 : execute_with_completion_check env.step4 STEP4_FILES env.files 1800 with
          _ | c4
        · by_cases hd : env.proofDirExists = true
          · simp only [if_pos hd]
            by_cases hs : 0 < env.statFinalProof.getD 0
            · simp only [if_pos hs]
              simp [ALL6, FIRST5, FIRST4]
            · simp only [if_neg hs]
              simp [FIRST5, FIRST4]
          · simp only [if_neg hd]
            simp [FIRST5, FIRST4]
        · simp [FIRST5, FIRST4]
      · simp only [if_neg hg]
        simp [FIRST4]
    · simp
  · simp

/-- The outcome and the started-step list of the body depend only on the
environment, never on the world contents: in particular no effect or
failure inside cleanup can change them. -/
theorem scriptBody_world_independent (env : ScriptEnv) (w w2 : World) :
    (scriptBody env w).outcome = (scriptBody env w2).outcome ∧
    (scriptBody env w).stepsStarted = (scriptBody env w2).stepsStarted := by
  unfold scriptBody
  rcases h1 : execute_with_completion_check env.step1 STEP1_FILES env.files 300 with _ | c1
  · rcases h2 : execute_with_completion_check env.step2 STEP2_FILES env.files 300 with _ | c2
    · by_cases hg : wait_for_zisk_resources env.busyAt = true
      · simp only [if_pos hg]
        rcases h4 : execute_with_completion_check env.step4 STEP4_FILES env.files 1800 with
          _ | c4
        · by_cases hd : env.proofDirExists = true
          · simp only [if_pos hd]
            by_cases hs : 0 < env.statFinalProof.getD 0
            · simp only [if_pos hs]
              simp
            · simp only [if_neg hs]
              simp
          · simp only [if_neg hd]
            simp
        · simp
      · simp only [if_neg hg]
        simp
    · simp
  · simp

theorem cleanupTrap_post (w : World) :
    (cleanupTrap w).1.lockFile = none ∧
    (∀ p ∈ (cleanupTrap w).1.procs, procMatchesZisk p = false) ∧
    (∀ n ∈ (cleanupTrap w).1.shmFiles, n.startsWith "ZISK_" = false) ∧
    (∀ n ∈ (cleanupTrap w).1.tmpFiles, n.startsWith "ZISK_" = false) := by
  refine ⟨rfl, ?_, ?_, ?_⟩
  · intro p hp
    simp only [cleanupTrap, cleanup_zisk_processes, List.mem_filter] at hp
    simpa using hp.2
  · intro n hn
    simp only [cleanupTrap, cleanup_zisk_processes, List.mem_filter] at hn
    simpa using hn.2
  · intro n hn
    simp only [cleanupTrap, cleanup_zisk_processes, List.mem_filter] at hn
    simpa using hn.2

theorem runLocked_cleanup (env : ScriptEnv) (rs : Bool) (w1 : World) :
    (runLocked env rs w1).cleanupRuns = 1 ∧
    (runLocked env rs w1).finalWorld.lockFile = none ∧
    (∀ p ∈ (runLocked env rs w1).finalWorld.procs, procMatchesZisk p = false) ∧
    (∀ n ∈ (runLocked env rs w1).finalWorld.shmFiles, n.startsWith "ZISK_" = false) ∧
    (∀ n ∈ (runLocked env rs w1).finalWorld.tmpFiles, n.startsWith "ZISK_" = false) := by
  have h := cleanupTrap_post (scriptBody env w1).world
  exact ⟨rfl, h.1, h.2.1, h.2.2.1, h.2.2.2⟩

theorem runScript_lock_none (env : ScriptEnv) (w0 : World) (h : w0.lockFile = none) :
    runScript env w0 = runLocked env false { w0 with lockFile := some (some env.myPid) } := by
  unfold runScript
  rw [h]

theorem runScript_lock_empty (env : ScriptEnv) (w0 : World) (h : w0.lockFile = some none) :
    runScript env w0 = runLocked env true { w0 with lockFile := some (some env.myPid) } := by
  unfold runScript
  rw [h]

theorem runScript_lock_live (env : ScriptEnv) (w0 : World) (pid : Nat)
    (h : w0.lockFile = some (some pid)) (hlive : env.live pid = true) :
    runScript env w0 = ⟨.busy pid, [], 0, false, some (some pid), w0, []⟩ := by
  unfold runScript
  rw [h]
  exact if_pos hlive

theorem runScript_lock_stale (env : ScriptEnv) (w0 : World) (pid : Nat)
    (h : w0.lockFile = some (some pid)) (hlive : env.live pid = false) :
    runScript env w0 = runLocked env true { w0 with lockFile := some (some env.myPid) } := by
  unfold runScript
  rw [h]
  exact if_neg (by rw [hlive]; simp)

/-- The outcome of a run depends only on the environment and the initial
lock file, never on the other world contents. -/
theorem runScript_outcome_world (env : ScriptEnv) (w w2 : World)
    (hl : w.lockFile = w2.lockFile) :
    (runScript env w).outcome = (runScript env w2).outcome := by
  rcases hc : w.lockFile with _ | oc
  · rw [runScript_lock_none env w hc, runScript_lock_none env w2 (hl ▸ hc)]
    exact (scriptBody_world_independent env _ _).1
  · rcases oc with _ | pid
    · rw [runScript_lock_empty env w hc, runScript_lock_empty env w2 (hl ▸ hc)]
      exact (scriptBody_world_independent env _ _).1
    · by_cases hlive : env.live pid = true
      · rw [runScript_lock_live env w pid hc hlive,
          runScript_lock_live env w2 pid (hl ▸ hc) hlive]
      · rw [runScript_lock_stale env w pid hc (by simpa using hlive),
          runScript_lock_stale env w2 pid (hl ▸ hc) (by simpa using hlive)]
        exact (scriptBody_world_independent env _ _).1

theorem scriptBody_completed_inv (env : ScriptEnv) (w : World) :
    (scriptBody env w).outcome = .completed →
    execute_with_completion_check env.step4 STEP4_FILES env.files 1800 = none ∧
    env.proofDirExists = true ∧ 0 < env.statFinalProof.getD 0 ∧
    (scriptBody env w).stepsStarted = ALL6 := by
  unfold scriptBody
  rcases h1 : execute_with_completion_check env.step1 STEP1_FILES env.files 300 with _ | c1
  · rcases h2 : execute_with_completion_check env.step2 STEP2_FILES env.files 300 with _ | c2
    · by_cases hg : wait_for_zisk_resources env.busyAt = true
      · simp only [if_pos hg]
        rcases h4 : execute_with_completion_check env.step4 STEP4_FILES env.files 1800 with
          _ | c4
        · by_cases hd : env.proofDirExists = true
          · simp only [if_pos hd]
            by_cases hs : 0 < env.statFinalProof.getD 0
            · simp only [if_pos hs]
              intro _
              exact ⟨by trivial, hd, hs, by trivial⟩
            · simp only [if_neg hs]
              intro h
              exact absurd h (by simp)
          · simp only [if_neg hd]
            intro h
            exact absurd h (by simp)
        · intro h
          exact absurd h (by simp)
      · simp only [if_neg hg]
        intro h
        exact absurd h (by simp)
    · intro h
      exact absurd h (by simp)
  · intro h
    exact absurd h (by simp)

theorem runLocked_completed_inv (env : ScriptEnv) (rs : Bool) (w1 : World)
    (h : (runLocked env rs w1).outcome = .completed) :
    verify_file_completion (env.files FINAL_PROOF_FILE) 1 60 = .Stable ∧
    env.proofDirExists = true ∧ 0 < env.statFinalProof.getD 0 ∧
    "Step 4" ∈ (runLocked env rs w1).stepsStarted := by
  have hb : (scriptBody env w1).outcome = .completed := h
  obtain ⟨h4, hd, hs, hsteps⟩ := scriptBody_completed_inv env w1 hb
  refine ⟨?_, hd, hs, ?_⟩
  · exact execute_none_artifacts env.step4 STEP4_FILES env.files 1800 h4 FINAL_PROOF_FILE
      (by simp [STEP4_FILES])
  · show "Step 4" ∈ (scriptBody env w1).stepsStarted
    rw [hsteps]
    simp [ALL6, FIRST5, FIRST4]

theorem scriptBody_step1_fail (env : ScriptEnv) (w : World) (c : StepFailure)
    (h1 : execute_with_completion_check env.step1 STEP1_FILES env.files 300 = some c) :
    scriptBody env w = ⟨.stepFailed "Step 1" "build.rs execution" c, ["Step 1"], w, []⟩ := by
  unfold scriptBody
  rw [h1]

theorem runLocked_step1_fail (env : ScriptEnv) (rs : Bool) (w1 : World) (c : StepFailure)
    (h1 : execute_with_completion_check env.step1 STEP1_FILES env.files 300 = some c) :
    runLocked env rs w1 = ⟨.stepFailed "Step 1" "build.rs execution" c, ["Step 1"], 1, rs,
      w1.lockFile, (cleanupTrap w1).1, (cleanupTrap w1).2⟩ := by
  unfold runLocked
  rw [scriptBody_step1_fail env w1 c h1]
  rfl

theorem scriptBody_step2_fail (env : ScriptEnv) (w : World) (c : StepFailure)
    (h1 : execute_with_completion_check env.step1 STEP1_FILES env.files 300 = none)
    (h2 : execute_with_completion_check env.step2 STEP2_FILES env.files 300 = some c) :
    scriptBody env w =
      ⟨.stepFailed "Step 2" "ZisK build" c, ["Step 1", "Step 2"], w, []⟩ := by
  unfold scriptBody
  rw [h1, h2]

theorem runLocked_step2_fail (env : ScriptEnv) (rs : Bool) (w1 : World) (c : StepFailure)
    (h1 : execute_with_completion_check env.step1 STEP1_FILES env.files 300 = none)
    (h2 : execute_with_completion_check env.step2 STEP2_FILES env.files 300 = some c) :
    runLocked env rs w1 = ⟨.stepFailed "Step 2" "ZisK build" c, ["Step 1", "Step 2"], 1, rs,
      w1.lockFile, (cleanupTrap w1).1, (cleanupTrap w1).2⟩ := by
  unfold runLocked
  rw [scriptBody_step2_fail env w1 c h1 h2]
  rfl

theorem scriptBody_gate_fail (env : ScriptEnv) (w : World)
    (h1 : execute_with_completion_check env.step1 STEP1_FILES env.files 300 = none)
    (h2 : execute_with_completion_check env.step2 STEP2_FILES env.files 300 = none)
    (hg : wait_for_zisk_resources env.busyAt = false) :
    scriptBody env w = ⟨.resourceUnavailable, FIRST4, w, []⟩ := by
  unfold scriptBody
  rw [h1, h2]
  simp only [hg, Bool.false_eq_true, if_false]

theorem runLocked_gate_fail (env : ScriptEnv) (rs : Bool) (w1 : World)
    (h1 : execute_with_completion_check env.step1 STEP1_FILES env.files 300 = none)
    (h2 : execute_with_completion_check env.step2 STEP2_FILES env.files 300 = none)
    (hg : wait_for_zisk_resources env.busyAt = false) :
    runLocked env rs w1 = ⟨.resourceUnavailable, FIRST4, 1, rs,
      w1.lockFile, (cleanupTrap w1).1, (cleanupTrap w1).2⟩ := by
  unfold runLocked
  rw [scriptBody_gate_fail env w1 h1 h2 hg]
  rfl

theorem runScript_envHappy_completed :
    (runScript envHappy w0Empty).outcome = .completed ∧
    (runScript envHappy w0Empty).stepsStarted = ALL6 :=
  runScript_completed envHappy w0Empty rfl
    (execute_okProc_happy STEP1_FILES (by decide) 300)
    (execute_okProc_happy STEP2_FILES (by decide) 300)
    (ziskWait_of_free0 freeBusyAt rfl)
    (execute_okProc_happy STEP4_FILES (by decide) 1800)
    rfl (by decide)

theorem runScript_envNonfatal_completed :
    (runScript envNonfatalFail w0Empty).outcome = .completed ∧
    (runScript envNonfatalFail w0Empty).stepsStarted = ALL6 :=
  runScript_completed envNonfatalFail w0Empty rfl
    (execute_okProc_happy STEP1_FILES (by decide) 300)
    (execute_okProc_happy STEP2_FILES (by decide) 300)
    (ziskWait_of_free0 freeBusyAt rfl)
    (execute_okProc_happy STEP4_FILES (by decide) 1800)
    rfl (by decide)

theorem runScript_envOnceFree_completed :
    (runScript envOnceFree w0Empty).outcome = .completed ∧
    (runScript envOnceFree w0Empty).stepsStarted = ALL6 :=
  runScript_completed envOnceFree w0Empty rfl
    (execute_okProc_happy STEP1_FILES (by decide) 300)
    (execute_okProc_happy STEP2_FILES (by decide) 300)
    (ziskWait_of_free0 onceFreeBusyAt rfl)
    (execute_okProc_happy STEP4_FILES (by decide) 1800)
    rfl (by decide)

/-! ## Theorems: game logic -/

/-- C9: the state returned by updateBird satisfies velocity bounded by
MAX_VELOCITY = 10, y clamped between BIRD_SIZE/2 = 15 and
CANVAS_HEIGHT - GROUND_HEIGHT - BIRD_SIZE/2 = 535, rotation clamped
between -25 and 45, and the x field unchanged. -/
theorem updateBird_clamping (bird : Bird) :
    (updateBird bird).velocity ≤ GAME_CONFIG.MAX_VELOCITY ∧
    GAME_CONFIG.BIRD_SIZE / 2 ≤ (updateBird bird).y ∧
    (updateBird bird).y ≤
      GAME_CONFIG.CANVAS_HEIGHT - GAME_CONFIG.GROUND_HEIGHT - GAME_CONFIG.BIRD_SIZE / 2 ∧
    (-25 : ℚ) ≤ (updateBird bird).rotation ∧
    (updateBird bird).rotation ≤ 45 ∧
    (updateBird bird).x = bird.x ∧
    GAME_CONFIG.MAX_VELOCITY = 10 ∧
    GAME_CONFIG.BIRD_SIZE / 2 = 15 ∧
    GAME_CONFIG.CANVAS_HEIGHT - GAME_CONFIG.GROUND_HEIGHT - GAME_CONFIG.BIRD_SIZE / 2 = 535 := by
  simp only [updateBird]
  refine ⟨min_le_left _ _, le_max_left _ _, ?_, ?_, min_le_left _ _, trivial, rfl, ?_, ?_⟩
  · exact max_le (by norm_num [GAME_CONFIG]) (min_le_left _ _)
  · exact le_min (by norm_num) (le_max_left _ _)
  · norm_num [GAME_CONFIG]
  · norm_num [GAME_CONFIG]

/-- C10: updateScore returns a pipe list of the same length in which each
pipe is replaced by pipePassUpdate of it (exactly those unpassed pipes
whose right edge is left of the bird become passed, everything else
unchanged and order preserved), and the score increase counts exactly
those pipes. -/
theorem updateScore_spec (bird : Bird) (pipes : List Pipe) :
    (updateScore bird pipes).1.length = pipes.length ∧
    (updateScore bird pipes).1 = pipes.map (pipePassUpdate bird) ∧
    (updateScore bird pipes).2 = pipes.countP (pipeJustPassed bird) := by
  induction pipes with
  | nil => simp [updateScore]
  | cons pipe rest ih =>
    by_cases h : pipe.passed = false ∧ pipe.x + GAME_CONFIG.PIPE_WIDTH < bird.x
    · simp [updateScore, pipePassUpdate, pipeJustPassed, h, ih.1, ih.2.1, ih.2.2,
        List.countP_cons]
    · simp [updateScore, pipePassUpdate, pipeJustPassed, h, ih.1, ih.2.1, ih.2.2,
        List.countP_cons]

/-! ## Theorems: proof-generation script -/

/-- C1: lock acquisition: when a lock record exists and its recorded PID
is live, the run returns Busy immediately with no step started, no
cleanup, and the world untouched; when the recorded PID is not live, the
stale record is replaced by a record with the acquiring PID and the run
proceeds into step 1, never returning Busy. -/
theorem executionLock_acquire_spec (env : ScriptEnv) (w0 : World) (pid : Nat) :
    (w0.lockFile = some (some pid) → env.live pid = true →
      runScript env w0 = ⟨.busy pid, [], 0, false, some (some pid), w0, []⟩) ∧
    (w0.lockFile = some (some pid) → env.live pid = false →
      (runScript env w0).removedStaleLock = true ∧
      (runScript env w0).lockAfterAcquire = some (some env.myPid) ∧
      (∀ q, ¬ (runScript env w0).outcome = .busy q) ∧
      "Step 1" ∈ (runScript env w0).stepsStarted) := by
  constructor
  · intro hl hlive
    exact runScript_lock_live env w0 pid hl hlive
  · intro hl hlive
    rw [runScript_lock_stale env w0 pid hl hlive]
    refine ⟨rfl, rfl, ?_, ?_⟩
    · intro q
      exact scriptBody_not_busy env _ q
    · exact scriptBody_starts_step1 env _

/-- Witness for C1 at a live recorded PID 42 and at a dead one. -/
theorem executionLock_acquire_spec_witness :
    (w0Locked.lockFile = some (some 42) ∧ envLiveLock.live 42 = true ∧
      runScript envLiveLock w0Locked =
        ⟨.busy 42, [], 0, false, some (some 42), w0Locked, []⟩) ∧
    (envDeadLock.live 42 = false ∧
      (runScript envDeadLock w0Locked).removedStaleLock = true ∧
      (runScript envDeadLock w0Locked).lockAfterAcquire = some (some envDeadLock.myPid) ∧
      (∀ q, ¬ (runScript envDeadLock w0Locked).outcome = .busy q) ∧
      "Step 1" ∈ (runScript envDeadLock w0Locked).stepsStarted) := by
  refine ⟨⟨rfl, by decide, ?_⟩, rfl, ?_⟩
  · exact (executionLock_acquire_spec envLiveLock w0Locked 42).1 rfl (by decide)
  · exact (executionLock_acquire_spec envDeadLock w0Locked 42).2 rfl rfl

/-- C2: every run that gets past acquisition, whatever its terminal
outcome, runs the EXIT-trap cleanup exactly once; afterwards the lock
record is gone, no process matching the toolchain patterns survives, and
no ZISK shared-memory or tmp artifact remains; and the reported outcome
is a function of the environment and initial lock record alone, so
nothing cleanup does (or fails to do) to the world can change it. -/
theorem cleanup_on_every_exit_path (env : ScriptEnv) (w0 : World)
    (h : ∀ q, ¬ (runScript env w0).outcome = .busy q) :
    (runScript env w0).cleanupRuns = 1 ∧
    (runScript env w0).finalWorld.lockFile = none ∧
    (∀ p ∈ (runScript env w0).finalWorld.procs, procMatchesZisk p = false) ∧
    (∀ n ∈ (runScript env w0).finalWorld.shmFiles, n.startsWith "ZISK_" = false) ∧
    (∀ n ∈ (runScript env w0).finalWorld.tmpFiles, n.startsWith "ZISK_" = false) ∧
    (∀ w2 : World, w2.lockFile = w0.lockFile →
      (runScript env w2).outcome = (runScript env w0).outcome) := by
  have hrl : ∃ rs w1, runScript env w0 = runLocked env rs w1 := by
    rcases hc : w0.lockFile with _ | oc
    · exact ⟨false, _, runScript_lock_none env w0 hc⟩
    · rcases oc with _ | pid
      · exact ⟨true, _, runScript_lock_empty env w0 hc⟩
      · by_cases hlive : env.live pid = true
        · exact absurd (by rw [runScript_lock_live env w0 pid hc hlive]) (h pid)
        · exact ⟨true, _, runScript_lock_stale env w0 pid hc (by simpa using hlive)⟩
  obtain ⟨rs, w1, he⟩ := hrl
  have hr := runLocked_cleanup env rs w1
  rw [he]
  refine ⟨hr.1, hr.2.1, hr.2.2.1, hr.2.2.2.1, hr.2.2.2.2, ?_⟩
  intro w2 hw2
  rw [← he]
  exact runScript_outcome_world env w2 w0 hw2

/-- Witness for C2 at the completing environment. -/
theorem cleanup_on_every_exit_path_witness :
    (runScript envHappy w0Empty).cleanupRuns = 1 ∧
    (runScript envHappy w0Empty).finalWorld.lockFile = none ∧
    (∀ p ∈ (runScript envHappy w0Empty).finalWorld.procs, procMatchesZisk p = false) ∧
    (∀ n ∈ (runScript envHappy w0Empty).finalWorld.shmFiles, n.startsWith "ZISK_" = false) ∧
    (∀ n ∈ (runScript envHappy w0Empty).finalWorld.tmpFiles, n.startsWith "ZISK_" = false) ∧
    (∀ w2 : World, w2.lockFile = w0Empty.lockFile →
      (runScript envHappy w2).outcome = (runScript envHappy w0Empty).outcome) :=
  cleanup_on_every_exit_path envHappy w0Empty
    (fun q hq => by
      rw [runScript_envHappy_completed.1] at hq
      exact absurd hq (by simp))

/-- C3 (amended): a step whose process never terminates within its
timeout is treated as a failed step (timedOut), but the process itself
is not killed by the step logic: it survives into the final world
whenever it matches neither of the cleanup pkill patterns, and it never
appears among the killed processes. -/
theorem step_timeout_failure_no_kill (p : ProcBehavior) (fs : List String)
    (files : String → Nat → Option Nat) (timeout : Nat) (env : ScriptEnv) (w0 : World)
    (pr : Proc) :
    ((∀ t, p.alive t = true) →
      execute_with_completion_check p fs files timeout = some .timedOut) ∧
    (w0.lockFile = none → (∀ t, env.step1.alive t = true) → pr ∈ w0.procs →
      procMatchesZisk pr = false →
      (runScript env w0).outcome = .stepFailed "Step 1" "build.rs execution" .timedOut ∧
      pr ∈ (runScript env w0).finalWorld.procs ∧
      pr ∉ (runScript env w0).killedProcs) := by
  constructor
  · intro ha
    exact execute_hangs p fs files timeout ha
  · intro hl ha hmem hnm
    have h1 : execute_with_completion_check env.step1 STEP1_FILES env.files 300 =
        some .timedOut := execute_hangs _ _ _ _ ha
    rw [runScript_lock_none env w0 hl, runLocked_step1_fail env false _ .timedOut h1]
    refine ⟨rfl, ?_, ?_⟩
    · simp only [cleanupTrap, cleanup_zisk_processes]
      exact List.mem_filter.mpr ⟨hmem, by rw [hnm]; rfl⟩
    · simp only [cleanupTrap, cleanup_zisk_processes]
      intro hin
      have hm2 := (List.mem_filter.mp hin).2
      rw [hnm] at hm2
      exact absurd hm2 (by simp)

/-- Witness for C3 at a hanging cargo-build process. -/
theorem step_timeout_failure_no_kill_witness :
    execute_with_completion_check hangProc STEP1_FILES happyFiles 300 = some .timedOut ∧
    ((runScript envStep1Hangs w0WithBuild).outcome =
        .stepFailed "Step 1" "build.rs execution" .timedOut ∧
      cargoBuildProc ∈ (runScript envStep1Hangs w0WithBuild).finalWorld.procs ∧
      cargoBuildProc ∉ (runScript envStep1Hangs w0WithBuild).killedProcs) :=
  ⟨(step_timeout_failure_no_kill hangProc STEP1_FILES happyFiles 300 envStep1Hangs
      w0WithBuild cargoBuildProc).1 (fun t => rfl),
   (step_timeout_failure_no_kill hangProc STEP1_FILES happyFiles 300 envStep1Hangs
      w0WithBuild cargoBuildProc).2 rfl (fun t => rfl) (by simp [w0WithBuild]) rfl⟩

/-- Counterexample to C3 as stated: with step 1 (cargo build, matching
no pkill pattern) hanging forever, the run fails the step with timedOut
but kills nothing: the process is still present in the final world and
the killed list is empty. -/
theorem step_timeout_kill_counterexample :
    (runScript envStep1Hangs w0WithBuild).outcome =
      .stepFailed "Step 1" "build.rs execution" .timedOut ∧
    cargoBuildProc ∈ (runScript envStep1Hangs w0WithBuild).finalWorld.procs ∧
    (runScript envStep1Hangs w0WithBuild).killedProcs = [] := by
  have h1 : execute_with_completion_check envStep1Hangs.step1 STEP1_FILES
      envStep1Hangs.files 300 = some .timedOut :=
    execute_hangs _ _ _ _ (fun t => rfl)
  rw [runScript_lock_none envStep1Hangs w0WithBuild rfl,
    runLocked_step1_fail envStep1Hangs false _ .timedOut h1]
  refine ⟨rfl, by decide, by decide⟩

/-- C4: verify_file_completion returns Stable only when some size at
least the minimum was observed unchanged across at least 3 consecutive
polls (so the file existed with that size); a file that never exists
within the wait yields Missing; a file that exists from the start but
grows at every poll yields Unstable at timeout exhaustion. -/
theorem verify_file_completion_characterization (fileAt : Nat → Option Nat)
    (minSize timeout : Nat) :
    (verify_file_completion fileAt minSize timeout = .Stable → 1 ≤ minSize →
      ∃ e S, minSize ≤ S ∧ fileAt e = some S ∧ fileAt (e + 2) = some S ∧
        fileAt (e + 4) = some S) ∧
    ((∀ t, fileAt t = none) → verify_file_completion fileAt minSize timeout = .Missing) ∧
    ((∀ t, fileAt t = some (t + 1)) →
      verify_file_completion fileAt minSize timeout = .Unstable) := by
  refine ⟨?_, ?_, ?_⟩
  · intro h hmin
    exact verify_stable_implies fileAt minSize timeout hmin h
  · exact verify_of_never fileAt minSize timeout
  · exact verify_growing fileAt minSize timeout

/-- Witness for C4 at a constant-size file, an absent file, and a file
growing at every poll. -/
theorem verify_file_completion_characterization_witness :
    (∃ e S, 1 ≤ S ∧ (fun (_ : Nat) => some 100) e = some S ∧
      (fun (_ : Nat) => some 100) (e + 2) = some S ∧
      (fun (_ : Nat) => some 100) (e + 4) = some S) ∧
    verify_file_completion (fun _ => none) 1 60 = .Missing ∧
    verify_file_completion (fun t => some (t + 1)) 1 60 = .Unstable :=
  ⟨(verify_file_completion_characterization (fun _ => some 100) 1 60).1
      (verify_of_const (fun _ => some 100) 100 1 60 (fun t => rfl) (by omega) (by omega)
        (by omega)) (by omega),
   (verify_file_completion_characterization (fun _ => none) 1 60).2.1 (fun t => rfl),
   (verify_file_completion_characterization (fun t => some (t + 1)) 1 60).2.2
      (fun t => rfl)⟩

/-- C5: a failing fatal step 2 ends the run as failed with the step name
and cause, with no later step started; and whenever the fatal steps
succeed and the final checks pass, the run completes with all six steps
started, with no condition at all on the non-fatal steps 2.5, 3 and 5
(their failures are only logged). -/
theorem fatal_nonfatal_step_policy (env env2 : ScriptEnv) (w0 w02 : World)
    (c : StepFailure) :
    (w0.lockFile = none →
      execute_with_completion_check env.step1 STEP1_FILES env.files 300 = none →
      execute_with_completion_check env.step2 STEP2_FILES env.files 300 = some c →
      (runScript env w0).outcome = .stepFailed "Step 2" "ZisK build" c ∧
      (runScript env w0).stepsStarted = ["Step 1", "Step 2"]) ∧
    (w02.lockFile = none →
      execute_with_completion_check env2.step1 STEP1_FILES env2.files 300 = none →
      execute_with_completion_check env2.step2 STEP2_FILES env2.files 300 = none →
      wait_for_zisk_resources env2.busyAt = true →
      execute_with_completion_check env2.step4 STEP4_FILES env2.files 1800 = none →
      env2.proofDirExists = true → 0 < env2.statFinalProof.getD 0 →
      (runScript env2 w02).outcome = .completed ∧
      (runScript env2 w02).stepsStarted = ALL6) := by
  constructor
  · intro hl h1 h2
    rw [runScript_lock_none env w0 hl, runLocked_step2_fail env false _ c h1 h2]
    exact ⟨rfl, rfl⟩
  · intro hl h1 h2 hg h4 hd hs
    exact runScript_completed env2 w02 hl h1 h2 hg h4 hd hs

/-- Witness for C5: step 2 failing with exit code 2 aborts the rest;
the ROM-setup step failing with exit code 1 still completes. -/
theorem fatal_nonfatal_step_policy_witness :
    ((runScript envStep2Fails w0Empty).outcome =
        .stepFailed "Step 2" "ZisK build" (.exitCode 2) ∧
      (runScript envStep2Fails w0Empty).stepsStarted = ["Step 1", "Step 2"]) ∧
    ((runScript envNonfatalFail w0Empty).outcome = .completed ∧
      (runScript envNonfatalFail w0Empty).stepsStarted = ALL6) := by
  constructor
  · exact (fatal_nonfatal_step_policy envStep2Fails envNonfatalFail w0Empty w0Empty
      (.exitCode 2)).1 rfl (execute_okProc_happy STEP1_FILES (by decide) 300)
      (execute_exitCode _ _ _ _ (fun t => rfl) (by decide))
  · exact (fatal_nonfatal_step_policy envStep2Fails envNonfatalFail w0Empty w0Empty
      (.exitCode 2)).2 rfl (execute_okProc_happy STEP1_FILES (by decide) 300)
      (execute_okProc_happy STEP2_FILES (by decide) 300)
      (ziskWait_of_free0 freeBusyAt rfl)
      (execute_okProc_happy STEP4_FILES (by decide) 1800) rfl (by decide)

/-- C6 (amended): the resource gate returns Ready exactly on observing,
at a single poll within the bounded 300s wait, every resource of the
fixed set (ports 23200 to 23202 and their shared-memory names) free at
once; resources never simultaneously free make it time out; and on gate
timeout the run aborts with resourceUnavailable before starting the
proof-generation step. -/
theorem resource_gate_single_poll (busyAt : Nat → ZiskResource → Bool)
    (env : ScriptEnv) (w0 : World) :
    (wait_for_zisk_resources busyAt = true →
      ∃ t, t < 300 ∧ ∀ r ∈ ziskResourceSet, busyAt t r = false) ∧
    ((∀ t, zisk_resources_free busyAt t = false) →
      wait_for_zisk_resources busyAt = false) ∧
    (w0.lockFile = none →
      execute_with_completion_check env.step1 STEP1_FILES env.files 300 = none →
      execute_with_completion_check env.step2 STEP2_FILES env.files 300 = none →
      wait_for_zisk_resources env.busyAt = false →
      (runScript env w0).outcome = .resourceUnavailable ∧
      ¬ "Step 4" ∈ (runScript env w0).stepsStarted) := by
  refine ⟨?_, ?_, ?_⟩
  · intro h
    obtain ⟨t, ht1, ht2, ht3⟩ := ziskWait_true_exists busyAt 0 h
    exact ⟨t, ht2, (zisk_resources_free_iff busyAt t).mp ht3⟩
  · intro h
    exact ziskWait_of_never busyAt h 0
  · intro hl h1 h2 hg
    rw [runScript_lock_none env w0 hl, runLocked_gate_fail env false _ h1 h2 hg]
    refine ⟨rfl, ?_⟩
    show ¬ "Step 4" ∈ FIRST4
    decide

/-- Witness for C6: free resources are observed free; never-free
resources time out; and a run whose gate times out aborts with
resourceUnavailable without starting step 4. -/
theorem resource_gate_single_poll_witness :
    (∃ t, t < 300 ∧ ∀ r ∈ ziskResourceSet, freeBusyAt t r = false) ∧
    wait_for_zisk_resources allBusyAt = false ∧
    ((runScript envNeverFree w0Empty).outcome = .resourceUnavailable ∧
      ¬ "Step 4" ∈ (runScript envNeverFree w0Empty).stepsStarted) := by
  refine ⟨?_, ?_, ?_⟩
  · exact (resource_gate_single_poll freeBusyAt envHappy w0Empty).1
      (ziskWait_of_free0 freeBusyAt rfl)
  · have hforall : ∀ t, zisk_resources_free allBusyAt t = false := by
      intro t
      rfl
    exact (resource_gate_single_poll allBusyAt envHappy w0Empty).2.1 hforall
  · exact (resource_gate_single_poll envNeverFree.busyAt envNeverFree w0Empty).2.2 rfl
      (execute_okProc_happy STEP1_FILES (by decide) 300)
      (execute_okProc_happy STEP2_FILES (by decide) 300)
      (ziskWait_of_never envNeverFree.busyAt (fun t => rfl) 0)

/-- Counterexample to C6 as stated: resources free only at the very
first poll instant and busy at every later instant still make the gate
report Ready, and the run proceeds into step 4 and completes: no
stability window of more than one poll is required, and the run is not
deferred. -/
theorem resource_gate_stability_window_counterexample :
    wait_for_zisk_resources onceFreeBusyAt = true ∧
    (∀ t r, 1 ≤ t → onceFreeBusyAt t r = true) ∧
    (runScript envOnceFree w0Empty).outcome = .completed ∧
    "Step 4" ∈ (runScript envOnceFree w0Empty).stepsStarted := by
  refine ⟨ziskWait_of_free0 onceFreeBusyAt rfl, ?_, runScript_envOnceFree_completed.1, ?_⟩
  · intro t r ht
    simp [onceFreeBusyAt, ht]
  · rw [runScript_envOnceFree_completed.2]
    decide

/-- C7 (amended): a completed run verified the final artifact at
proof/vadcop_final_proof.bin as Stable with minimum size 1, found the
proof directory present and the final proof file non-empty, and started
step 4; the final artifact path of step 4 is proof/vadcop_final_proof.bin
(not proof/final.bin). -/
theorem success_final_artifact_path (env : ScriptEnv) (w0 : World)
    (h : (runScript env w0).outcome = .completed) :
    verify_file_completion (env.files FINAL_PROOF_FILE) 1 60 = .Stable ∧
    env.proofDirExists = true ∧
    0 < env.statFinalProof.getD 0 ∧
    "Step 4" ∈ (runScript env w0).stepsStarted ∧
    STEP4_FILES = [FINAL_PROOF_FILE] ∧
    FINAL_PROOF_FILE = "proof/vadcop_final_proof.bin" := by
  rcases hc : w0.lockFile with _ | oc
  · rw [runScript_lock_none env w0 hc] at h ⊢
    have hr := runLocked_completed_inv env false _ h
    exact ⟨hr.1, hr.2.1, hr.2.2.1, hr.2.2.2, rfl, rfl⟩
  · rcases oc with _ | pid
    · rw [runScript_lock_empty env w0 hc] at h ⊢
      have hr := runLocked_completed_inv env true _ h
      exact ⟨hr.1, hr.2.1, hr.2.2.1, hr.2.2.2, rfl, rfl⟩
    · by_cases hlive : env.live pid = true
      · rw [runScript_lock_live env w0 pid hc hlive] at h
        exact absurd h (by simp)
      · rw [runScript_lock_stale env w0 pid hc (by simpa using hlive)] at h ⊢
        have hr := runLocked_completed_inv env true _ h
        exact ⟨hr.1, hr.2.1, hr.2.2.1, hr.2.2.2, rfl, rfl⟩

/-- Witness for C7 at the completing environment. -/
theorem success_final_artifact_path_witness :
    (runScript envHappy w0Empty).outcome = .completed ∧
    verify_file_completion (envHappy.files FINAL_PROOF_FILE) 1 60 = .Stable ∧
    envHappy.proofDirExists = true ∧
    0 < envHappy.statFinalProof.getD 0 ∧
    "Step 4" ∈ (runScript envHappy w0Empty).stepsStarted :=
  ⟨runScript_envHappy_completed.1,
   (success_final_artifact_path envHappy w0Empty runScript_envHappy_completed.1).1,
   (success_final_artifact_path envHappy w0Empty runScript_envHappy_completed.1).2.1,
   (success_final_artifact_path envHappy w0Empty runScript_envHappy_completed.1).2.2.1,
   (success_final_artifact_path envHappy w0Empty runScript_envHappy_completed.1).2.2.2.1⟩

/-- Counterexample to C7 as stated: a run can complete although no file
named proof/final.bin ever exists; the artifact the script verifies is
proof/vadcop_final_proof.bin. -/
theorem final_artifact_path_counterexample :
    (runScript envHappy w0Empty).outcome = .completed ∧
    (∀ t, envHappy.files "proof/final.bin" t = none) ∧
    FINAL_PROOF_FILE = "proof/vadcop_final_proof.bin" := by
  refine ⟨runScript_envHappy_completed.1, ?_, rfl⟩
  intro t
  simp [envHappy, happyFiles]

/-- C8 (amended): the lock claim is a non-atomic check-then-write: when
two acquirers interleave (both check before either writes), both observe
no lock and both reach the running phase, so mutual exclusion is not
guaranteed; only when one acquirer completes its check and write before
the other checks does the second observe the first's live PID and exit
Busy. -/
theorem lock_claim_nonatomic (live : Nat → Bool) (pa pb : Nat) (h : live pa = true) :
    ((runSchedule live [true, false, true, false]
        ⟨none, .start, .start, pa, pb⟩).phaseA = .running ∧
      (runSchedule live [true, false, true, false]
        ⟨none, .start, .start, pa, pb⟩).phaseB = .running) ∧
    ((runSchedule live [true, true, false]
        ⟨none, .start, .start, pa, pb⟩).phaseA = .running ∧
      (runSchedule live [true, true, false]
        ⟨none, .start, .start, pa, pb⟩).phaseB = .busyExit pa) := by
  refine ⟨⟨rfl, rfl⟩, rfl, ?_⟩
  simp [runSchedule, acqStepFn, acqCheck, h]

/-- Witness for C8 at concrete PIDs 101 and 202 with 101 live. -/
theorem lock_claim_nonatomic_witness :
    ((fun p => decide (p = 101)) 101 = true) ∧
    (runSchedule (fun p => decide (p = 101)) [true, true, false]
        ⟨none, .start, .start, 101, 202⟩).phaseB = .busyExit 101 :=
  ⟨by decide,
   (lock_claim_nonatomic (fun p => decide (p = 101)) 101 202 (by decide)).2.2⟩

/-- Counterexample to C8 as stated: under the interleaving where both
acquirers check before either writes, both proceed to run, and the lock
file ends recording the later writer: two callers that both observed no
lock both proceeded. -/
theorem lock_claim_atomicity_counterexample :
    (runSchedule (fun _ => true) [true, false, true, false]
        ⟨none, .start, .start, 101, 202⟩).phaseA = .running ∧
    (runSchedule (fun _ => true) [true, false, true, false]
        ⟨none, .start, .start, 101, 202⟩).phaseB = .running ∧
    (runSchedule (fun _ => true) [true, false, true, false]
        ⟨none, .start, .start, 101, 202⟩).lockFile = some (some 202) :=
  ⟨rfl, rfl, rfl⟩
